import Mathlib

/-!
# Verification of the backend-backup-service orchestration core

A shallow embedding, in Lean 4, of the parts of the backup orchestration
service that the specification's claims talk about:

* the adapter registries (`src/backend/src/backup_destination/__init__.py`,
  `src/src/backup_source/__init__.py`),
* the backup-filename convention (`src/backend/src/base.py` together with the
  source adapters `elasticsearch.py` / `qdrant.py`),
* the worker tasks `create_backup` / `restore_from_backup`
  (`src/backend/src/services/worker.py` and `src/backend/src/worker.py`),
* the schedule manager (`src/backend/src/backup_schedule_manager.py`),
* the dispatcher (`src/backend/src/scheduler.py`), and
* the destination adapters (`local_fs.py`, `s3.py`, `sftp.py`).

Python exceptions are modelled with `Except`; a database table is a list of
rows; `datetime` values are modelled as natural numbers (ISO-formatted
timestamps of a fixed format compare identically to the instants they denote).
-/

namespace BackupService

/-- `src/backend/src/models/structs.py` — the transient decrypted credential
record passed to every adapter constructor. -/
structure Credentials where
  url : String
  login : Option String := none
  password : Option String := none
  api_key : Option String := none
deriving Repr, DecidableEq

/-- The Python exception classes that the embedded code can raise.
`keyError` models `KeyError` (raised by a dict lookup miss),
`valueError` models `ValueError`, `attributeError` models `AttributeError`,
`fileNotFoundError` models `FileNotFoundError` and `runtimeError` models
`RuntimeError`.  `unsupportedAdapterType` models the exception class named
`UnsupportedAdapterType` by the specification; no class of that name exists
anywhere in the repository, and no embedded operation ever produces it. -/
inductive PyError where
  | keyError (key : String)
  | valueError (msg : String)
  | attributeError (name : String)
  | fileNotFoundError (path : String)
  | runtimeError (msg : String)
  | unsupportedAdapterType (tag : String)
deriving Repr, DecidableEq

/-- `src/backend/src/models/structs.py` — `BackupDetails`.  `modified` is the
modification timestamp (`size`/`modified` are numeric in the model; the code
sorts by the `modified` field and ISO strings of one format sort like the
instants they denote). -/
structure BackupDetails where
  name : String
  path : String
  source : String
  source_id : Nat
  size : Nat
  modified : Nat
deriving Repr, DecidableEq

/-- `src/src/models/db.py` — the `Schedule` row. -/
structure Schedule where
  id : Nat
  tenant_id : String
  name : String
  source_id : Nat
  destination_id : Nat
  keep_n : Nat
  schedule : String
  is_active : Bool
  last_run : Option Nat := none
  next_run : Option Nat := none
  created_at : Nat
  updated_at : Nat
deriving Repr, DecidableEq

/-! ## Adapter registries

`src/backend/src/backup_destination/__init__.py` and
`src/src/backup_source/__init__.py`.  Each adapter value records the
credentials it was constructed from; a constructor takes nothing else. -/

/-- A constructed destination adapter (`S3BackupDestination`,
`LocalFSBackupDestination`, `SFTPBackupDestination`). -/
inductive DestinationAdapter where
  | s3 (credentials : Credentials)
  | local_fs (credentials : Credentials)
  | sftp (credentials : Credentials)
deriving Repr, DecidableEq

/-- A constructed source adapter. -/
inductive SourceAdapter where
  | vault (credentials : Credentials)
  | qdrant (credentials : Credentials)
  | postgres (credentials : Credentials)
  | elasticsearch (credentials : Credentials)
deriving Repr, DecidableEq

/-- `BackupDestinationManager.create_from_type`
(`src/backend/src/backup_destination/__init__.py`, lines 11-18):
`map_ = {"s3": …, "local_fs": …, "sftp": …}; return map_[source_type](self.credentials)`.
A missing dict key raises `KeyError`. -/
def BackupDestinationManager.create_from_type (credentials : Credentials)
    (source_type : String) : Except PyError DestinationAdapter :=
  if source_type = "s3" then .ok (.s3 credentials)
  else if source_type = "local_fs" then .ok (.local_fs credentials)
  else if source_type = "sftp" then .ok (.sftp credentials)
  else .error (.keyError source_type)

/-- Python truthiness of an `Optional[str]` field: `None` and `""` are
falsy. -/
def pyTruthy : Option String → Bool
  | none => false
  | some s => s ≠ ""

/-- `VaultBackupManager.__init__` → `_initialize_client`
(`src/src/backup_source/vault.py`, lines 20-46): with a truthy `api_key` the
token is set locally; with truthy `login` and `password` a network
`userpass.login` runs (its outcome is the collaborator argument
`userpass_login`); with neither, `ValueError` is raised.  Afterwards
`client.is_authenticated()` (a network call, outcome `is_authenticated`)
must be true or `RuntimeError` is raised. -/
def vault_initialize_client (credentials : Credentials)
    (userpass_login : Except PyError Unit) (is_authenticated : Bool) :
    Except PyError Unit :=
  if pyTruthy credentials.api_key then
    if is_authenticated then .ok ()
    else .error (.runtimeError "Failed to authenticate with Vault")
  else if pyTruthy credentials.login && pyTruthy credentials.password then
    match userpass_login with
    | .error e => .error e
    | .ok _ =>
      if is_authenticated then .ok ()
      else .error (.runtimeError "Failed to authenticate with Vault")
  else
    .error (.valueError "Either api_key or login/password credentials are required")

/-- `BackupManager.create_from_type` (`src/src/backup_source/__init__.py`,
lines 13-23): the dict maps each tag to an **eagerly constructed** adapter
instance, so all four constructors run — in source order, Vault first —
before `map_[source_type]` is indexed.  `VaultBackupManager.__init__` can
raise (see `vault_initialize_client`); the Qdrant / Postgres /
Elasticsearch constructors only build client objects and parse the URL
locally, raising nothing.  Only after the dict is built does a missing key
raise `KeyError`. -/
def BackupManager.create_from_type (credentials : Credentials)
    (source_type : String) (vault_userpass_login : Except PyError Unit)
    (vault_is_authenticated : Bool) : Except PyError SourceAdapter :=
  match vault_initialize_client credentials vault_userpass_login
      vault_is_authenticated with
  | .error e => .error e
  | .ok _ =>
    if source_type = "vault" then .ok (.vault credentials)
    else if source_type = "qdrant" then .ok (.qdrant credentials)
    else if source_type = "postgres" then .ok (.postgres credentials)
    else if source_type = "elasticsearch" then .ok (.elasticsearch credentials)
    else .error (.keyError source_type)

/-! ## Schedule manager

`src/backend/src/backup_schedule_manager.py`.  The database is a list of
`Schedule` rows; `id` is the primary key.  Every mutation returns the new
table together with the number of reload notifications published on the
`schedules` topic (`_notify_scheduler_reload` publishes exactly one message
per call). -/

/-- `ScheduleManager.get_schedule` (lines 72-86): the first row matching
`id == schedule_id ∧ tenant_id == tenant_id`. -/
def get_schedule (db : List Schedule) (schedule_id : Nat) (tenant_id : String) :
    Option Schedule :=
  db.find? (fun s => s.id == schedule_id && s.tenant_id == tenant_id)

/-- Committing a modified row: the session rewrites the row with the same
primary key. -/
def commit_row (db : List Schedule) (s' : Schedule) : List Schedule :=
  db.map (fun s => if s.id == s'.id then s' else s)

/-- `ScheduleManager.create_schedule` (lines 32-70): builds the row, commits
it, publishes one reload notification, returns the row.  `new_id` stands for
the primary key the database assigns and `now` for `datetime.now()`. -/
def create_schedule (db : List Schedule) (tenant_id name : String)
    (source_id destination_id keep_n : Nat) (schedule : String)
    (is_active : Bool) (new_id now : Nat) : Schedule × List Schedule × Nat :=
  let s : Schedule :=
    { id := new_id, tenant_id := tenant_id, name := name, source_id := source_id,
      destination_id := destination_id, keep_n := keep_n, schedule := schedule,
      is_active := is_active, last_run := none, next_run := none,
      created_at := now, updated_at := now }
  (s, db ++ [s], 1)

/-- `ScheduleManager.update_schedule` (lines 108-162): `None` arguments leave
the field unchanged; on success publishes one reload notification, on a
missing row publishes none. -/
def update_schedule (db : List Schedule) (schedule_id : Nat) (tenant_id : String)
    (name : Option String) (source_id destination_id keep_n : Option Nat)
    (schedule : Option String) (is_active : Option Bool)
    (next_run : Option Nat) (now : Nat) :
    Option Schedule × List Schedule × Nat :=
  match get_schedule db schedule_id tenant_id with
  | none => (none, db, 0)
  | some s =>
    let s' : Schedule :=
      { s with
        name := name.getD s.name
        source_id := source_id.getD s.source_id
        destination_id := destination_id.getD s.destination_id
        keep_n := keep_n.getD s.keep_n
        schedule := schedule.getD s.schedule
        is_active := is_active.getD s.is_active
        next_run := match next_run with | some v => some v | none => s.next_run
        updated_at := now }
    (some s', commit_row db s', 1)

/-- `ScheduleManager.delete_schedule` (lines 164-183). -/
def delete_schedule (db : List Schedule) (schedule_id : Nat) (tenant_id : String) :
    Bool × List Schedule × Nat :=
  match get_schedule db schedule_id tenant_id with
  | none => (false, db, 0)
  | some s => (true, db.filter (fun t => t.id != s.id), 1)

/-- `ScheduleManager.update_last_run` (lines 185-210): sets `last_run` and
`updated_at`, commits, and — per the comment `# No reload needed for last_run
updates` — publishes no reload notification. -/
def update_last_run (db : List Schedule) (schedule_id : Nat) (tenant_id : String)
    (last_run now : Nat) : Option Schedule × List Schedule × Nat :=
  match get_schedule db schedule_id tenant_id with
  | none => (none, db, 0)
  | some s =>
    let s' : Schedule := { s with last_run := some last_run, updated_at := now }
    (some s', commit_row db s', 0)

/-- `ScheduleManager.toggle_schedule` (lines 212-236). -/
def toggle_schedule (db : List Schedule) (schedule_id : Nat) (tenant_id : String)
    (now : Nat) : Option Schedule × List Schedule × Nat :=
  match get_schedule db schedule_id tenant_id with
  | none => (none, db, 0)
  | some s =>
    let s' : Schedule := { s with is_active := !s.is_active, updated_at := now }
    (some s', commit_row db s', 1)

/-! ## Dispatcher — `src/backend/src/scheduler.py` -/

/-- The `celery.schedules.crontab` value built from a 5-field expression. -/
structure Crontab where
  minute : String
  hour : String
  day_of_month : String
  month_of_year : String
  day_of_week : String
deriving Repr, DecidableEq

/-- Python's `str.split(" ")`: split at every single space, keeping empty
parts (`"".split(" ") == [""]`). -/
def pySplitSpaceAux : List Char → List Char → List String
  | [], acc => [acc.reverse.asString]
  | c :: cs, acc =>
    if c = ' ' then acc.reverse.asString :: pySplitSpaceAux cs []
    else pySplitSpaceAux cs (c :: acc)

/-- `exp.split(" ")`. -/
def pySplitSpace (s : String) : List String :=
  pySplitSpaceAux s.toList []

/-- `parse_cron_exp` (lines 14-28): `exp.split(" ")`, a `ValueError` unless
exactly 5 parts. -/
def parse_cron_exp (exp : String) : Except PyError Crontab :=
  match pySplitSpace exp with
  | [minute, hour, day_of_month, month, day_of_week] =>
    .ok { minute := minute, hour := hour, day_of_month := day_of_month,
          month_of_year := month, day_of_week := day_of_week }
  | parts =>
    .error (.valueError s!"Invalid cron expression. Expected 5 fields, got {parts.length}")

/-- One value of the beat-schedule dict built by `load_schedules_from_db`. -/
structure ScheduleEntry where
  task : String
  cron : Crontab
  source_id : Nat
  destination_id : Nat
  tenant_id : String
  schedule_id : Nat
  keep_n : Nat
deriving Repr, DecidableEq

/-- The dict key `f"backup-schedule-{schedule.id}-{schedule.tenant_id}"`. -/
def schedule_key (s : Schedule) : String :=
  s!"backup-schedule-{s.id}-{s.tenant_id}"

/-- The dict value built for one row. -/
def schedule_entry (s : Schedule) (c : Crontab) : ScheduleEntry :=
  { task := "src.worker.create_backup", cron := c, source_id := s.source_id,
    destination_id := s.destination_id, tenant_id := s.tenant_id,
    schedule_id := s.id, keep_n := s.keep_n }

/-- `load_schedules_from_db` (lines 31-47): iterates over `select(Schedule)` —
every row, with no filter on `is_active` — and calls `parse_cron_exp` on each
inside the loop; an exception from any row propagates out of the whole
function, abandoning the dict built so far. -/
def load_schedules_from_db : List Schedule →
    Except PyError (List (String × ScheduleEntry))
  | [] => .ok []
  | s :: rest =>
    match parse_cron_exp s.schedule with
    | .error e => .error e
    | .ok c =>
      match load_schedules_from_db rest with
      | .error e => .error e
      | .ok table => .ok ((schedule_key s, schedule_entry s c) :: table)

/-! ## Worker — `src/backend/src/services/worker.py` and
`src/backend/src/worker.py`

The retention step of `create_backup` (services variant, lines 144-174;
identical logic in `src/backend/src/worker.py`, lines 76-95):

```
relevant_backups = sorted(
    filter(lambda backup: backup.source == backup_source.source_type, backups),
    key=lambda x: x.modified)
if keep_n:
    for extra_backup in relevant_backups[:-keep_n]:
        backup_destination_manager.delete_backup(extra_backup.path)
```

`delete_backup` is a transport call that may raise; the loop has no
`try`/`except` of its own, so the first exception propagates and the loop
body never runs again.  Outcomes of transport calls are passed in as a
function from path to `Except`. -/

/-- The artifacts of the triggering source's type, sorted ascending by
modification time (Python's `sorted` is a stable ascending sort; insertion
sort is one). -/
def relevant_backups (backups : List BackupDetails) (source_type : String) :
    List BackupDetails :=
  List.insertionSort (fun a b => a.modified ≤ b.modified)
    (backups.filter (fun b => b.source == source_type))

/-- `relevant_backups[:-keep_n]` for `keep_n ≥ 1`: everything except the
newest `keep_n` artifacts. -/
def excess_backups (backups : List BackupDetails) (source_type : String)
    (keep_n : Nat) : List BackupDetails :=
  let rel := relevant_backups backups source_type
  rel.take (rel.length - keep_n)

/-- The deletion loop.  Returns the paths whose deletion calls ran and
succeeded, and the exception (if any) that aborted the loop: on the first
failing `delete_backup` the exception propagates and the remaining artifacts
are not visited. -/
def prune_loop (delete_backup : String → Except PyError Unit) :
    List BackupDetails → List String × Option PyError
  | [] => ([], none)
  | b :: rest =>
    match delete_backup b.path with
    | .error e => ([], some e)
    | .ok _ =>
      let r := prune_loop delete_backup rest
      (b.path :: r.1, r.2)

/-- The whole retention step: Python's `if keep_n:` is falsy both for `None`
and for `0`. -/
def retention_step (delete_backup : String → Except PyError Unit)
    (backups : List BackupDetails) (source_type : String)
    (keep_n : Option Nat) : List String × Option PyError :=
  match keep_n with
  | none => ([], none)
  | some 0 => ([], none)
  | some (k + 1) =>
    prune_loop delete_backup (excess_backups backups source_type (k + 1))

/-- `LocalFSBackupDestination._delete_extra_backups`
(`src/backend/src/backup_destination/local_fs.py`, lines 127-143; the same
loop appears in `s3.py` and `sftp.py`): each deletion is wrapped in its own
`try`/`except`, so a failure is printed and the loop continues.  This helper
is never called by the worker's `create_backup`.  Returns the successfully
deleted paths. -/
def delete_extra_loop (delete_backup : String → Except PyError Unit) :
    List BackupDetails → List String
  | [] => []
  | b :: rest =>
    match delete_backup b.path with
    | .error _ => delete_extra_loop delete_backup rest
    | .ok _ => b.path :: delete_extra_loop delete_backup rest

/-- Outcome of `restore_from_backup` in `src/backend/src/worker.py`
(lines 146-197).  Inputs are the outcomes of the collaborator calls:
`resolve` (the two `db_session.exec(...).one()` lookups — this variant never
decrypts credentials), `get_backup`, and `restore` (the source adapter's
`restore_from_backup`).  The result is `(returned-boolean, cleanup-ran)`;
there is no `try` around `get_backup`, so its exception (and a resolution
exception) propagates to the caller. -/
def worker_restore_from_backup (resolve : Except PyError Unit)
    (get_backup : Except PyError String)
    (restore : String → Except PyError Unit) :
    Except PyError (Bool × Bool) :=
  match resolve with
  | .error e => .error e
  | .ok _ =>
    match get_backup with
    | .error e => .error e
    | .ok local_path =>
      match restore local_path with
      | .ok _ => .ok (true, true)
      | .error _ => .ok (false, true)

/-- Outcome of `restore_from_backup` in `src/backend/src/services/worker.py`
(lines 264-337).  The body is wrapped in an outer
`except ValueError: … return False` / `except Exception: … return False`,
so resolution failures, credential-decryption failures
(`_decrypt_credentials` raises `ValueError`) and `get_backup` transport
failures are all converted into the return value `False`; nothing is raised
to the caller.  The result is `(returned-boolean, cleanup-ran)` where the
cleanup (removal of the locally fetched copy) runs in the inner `finally`,
i.e. only once `get_backup` has produced a local path. -/
def services_restore_from_backup (resolve : Except PyError Unit)
    (decrypt_source : Except PyError Unit)
    (decrypt_destination : Except PyError Unit)
    (get_backup : Except PyError String)
    (restore : String → Except PyError Unit) :
    Bool × Bool :=
  match resolve with
  | .error _ => (false, false)
  | .ok _ =>
    match decrypt_source with
    | .error _ => (false, false)
    | .ok _ =>
      match decrypt_destination with
      | .error _ => (false, false)
      | .ok _ =>
        match get_backup with
        | .error _ => (false, false)
        | .ok local_path =>
          match restore local_path with
          | .ok _ => (true, true)
          | .error _ => (false, true)

/-! ## Destination adapters — upload write patterns

`upload_backup` in `local_fs.py` (lines 20-46), `s3.py` (lines 73-92) and
`sftp.py` (lines 86-105).  Each upload is modelled as the sequence of storage
operations it performs, so that the write pattern (direct write vs.
write-temporary-then-rename) is visible. -/

/-- A storage operation performed against a destination backend. -/
inductive FsOp where
  /-- `shutil.copy2(src, dst)` — local filesystem write of the full file. -/
  | copy (src dst : String)
  /-- `s3_client.upload_file(local, bucket, key)`. -/
  | s3UploadFile (loc bucket key : String)
  /-- `sftp_client.put(local, remote)`. -/
  | sftpPut (loc remote : String)
  /-- A rename/move of a stored object.  No adapter ever emits one. -/
  | rename (src dst : String)
  /-- Deletion of a stored object. -/
  | deleteObject (path : String)
deriving Repr, DecidableEq

/-- `os.path.splitext`: split off the extension at the final dot, provided
the dot is not the first character of the (slash-free) name. -/
def splitext (s : String) : String × String :=
  let cs := s.toList
  let revExt := cs.reverse.takeWhile (fun c => c ≠ '.')
  if revExt.length + 1 < cs.length then
    ((cs.take (cs.length - revExt.length - 1)).asString,
      ('.' :: revExt.reverse).asString)
  else
    (s, "")

/-- `os.path.basename` for POSIX paths: the part after the final slash. -/
def pyBasename (s : String) : String :=
  ((s.toList.reverse.takeWhile (fun c => c ≠ '/')).reverse).asString

/-- Python's `str.replace("//", "/")`: left-to-right replacement of
non-overlapping occurrences. -/
def replaceDoubleSlashAux : List Char → List Char
  | '/' :: '/' :: rest => '/' :: replaceDoubleSlashAux rest
  | c :: rest => c :: replaceDoubleSlashAux rest
  | [] => []

/-- `(…).replace("//", "/")` as called by the SFTP adapter. -/
def replaceDoubleSlash (s : String) : String :=
  (replaceDoubleSlashAux s.toList).asString

/-- `LocalFSBackupDestination.upload_backup` (lines 20-46): missing local
file raises `FileNotFoundError`; otherwise the file is copied with
`shutil.copy2` directly to `backup_dir/<basename>` (with a timestamp suffix
appended when that final name already exists).  Inputs `local_exists` and
`dest_exists` are the outcomes of the two `os.path.exists` checks and `now`
is `datetime.now().strftime("%Y%m%d_%H%M%S")`.  Returns the operations
performed and the returned remote path. -/
def localfs_upload_backup (backup_dir local_backup_path : String)
    (local_exists dest_exists : Bool) (now : String) :
    List FsOp × Except PyError String :=
  if !local_exists then
    ([], .error (.fileNotFoundError local_backup_path))
  else
    let filename := pyBasename local_backup_path
    let destination_path := backup_dir ++ "/" ++ filename
    if dest_exists then
      let ne := splitext filename
      let filename' := ne.1 ++ "_" ++ now ++ ne.2
      let destination_path' := backup_dir ++ "/" ++ filename'
      ([.copy local_backup_path destination_path'], .ok destination_path')
    else
      ([.copy local_backup_path destination_path], .ok destination_path)

/-- `S3BackupDestination._get_s3_key` (lines 60-71). -/
def get_s3_key (pfx0 filename : String) : String :=
  if pfx0 ≠ "" then
    (pfx0 ++ "/" ++ filename).dropWhile (fun c => c = '/')
  else filename

/-- `S3BackupDestination.upload_backup` (lines 73-92): missing local file
raises `FileNotFoundError`; otherwise one `upload_file` call straight to the
final key; a backend failure is re-raised as `RuntimeError` with no cleanup
of any remote name.  `backend_failure` is the outcome of the SDK call. -/
def s3_upload_backup (bucket pfx0 local_backup_path : String)
    (local_exists : Bool) (backend_failure : Option String) :
    List FsOp × Except PyError String :=
  if !local_exists then
    ([], .error (.fileNotFoundError local_backup_path))
  else
    let s3_key := get_s3_key pfx0 (pyBasename local_backup_path)
    match backend_failure with
    | some msg =>
      ([.s3UploadFile local_backup_path bucket s3_key],
        .error (.runtimeError ("Failed to upload backup to S3: " ++ msg)))
    | none => ([.s3UploadFile local_backup_path bucket s3_key], .ok s3_key)

/-- `SFTPBackupDestination.upload_backup` (lines 86-105): missing local file
raises `FileNotFoundError`; otherwise one `put` call straight to the final
remote path; a backend failure is re-raised as `RuntimeError` with no cleanup
of any remote name.  (`replace("//", "/")` is applied to the joined path; the
model keeps the joined string abstractly via `remote_path`.) -/
def sftp_upload_backup (remote_dir local_backup_path : String)
    (local_exists : Bool) (backend_failure : Option String) :
    List FsOp × Except PyError String :=
  if !local_exists then
    ([], .error (.fileNotFoundError local_backup_path))
  else
    let remote_path :=
      replaceDoubleSlash (remote_dir ++ "/" ++ pyBasename local_backup_path)
    match backend_failure with
    | some msg =>
      ([.sftpPut local_backup_path remote_path],
        .error (.runtimeError ("Failed to upload backup to SFTP: " ++ msg)))
    | none => ([.sftpPut local_backup_path remote_path], .ok remote_path)

/-! ## `LocalFSBackupDestination.list_backups` — `local_fs.py`, lines 48-84

The loop skips directories; for the first regular file it evaluates
`self._extract_backup_source(filepath)`.  Python resolves that attribute
against the class and then its base class; the tables below list every
method the two classes define (`local_fs.py` lines 11-170 and `base.py`
lines 45-137). -/

/-- The methods defined on `LocalFSBackupDestination`. -/
def localFSMethods : List String :=
  ["__init__", "_ensure_backup_dir_exists", "upload_backup", "list_backups",
   "delete_backup", "get_backup", "_delete_extra_backups", "test_connection"]

/-- The methods defined on `BaseBackupDestinationManager` (`base.py`). -/
def baseDestinationMethods : List String :=
  ["__init__", "upload_backup", "list_backups", "delete_backup", "get_backup",
   "_delete_extra_backups", "test_connection", "_parse_filename"]

/-- Python attribute lookup on a `LocalFSBackupDestination` instance. -/
def localFSHasAttr (name : String) : Bool :=
  localFSMethods.contains name || baseDestinationMethods.contains name

/-- A directory entry as seen by `os.listdir` + `os.stat`. -/
structure FsEntry where
  name : String
  isDir : Bool
  size : Nat
  mtime : Nat
deriving Repr, DecidableEq

/-- The body of `_extract_backup_source`, were it defined: it is not —
attribute lookup fails, so there is no implementation to model. -/
def extract_backup_source_impl : Option (String → String) :=
  if localFSHasAttr "_extract_backup_source" then
    some (fun _ => "")
  else none

/-- `LocalFSBackupDestination.list_backups` (lines 48-84): directories are
skipped; building `BackupDetails` for a regular file calls
`self._extract_backup_source(filepath)`, which raises `AttributeError`
because neither the class nor its base defines it.  (The unreachable
`some`-branch would use the implementation; none exists.) -/
def localfs_list_backups (backup_dir : String) (entries : List FsEntry) :
    Except PyError (List BackupDetails) :=
  match entries with
  | [] => .ok []
  | e :: rest =>
    if e.isDir then localfs_list_backups backup_dir rest
    else
      match extract_backup_source_impl with
      | none => .error (.attributeError "_extract_backup_source")
      | some f =>
        (localfs_list_backups backup_dir rest).map
          (fun l =>
            { name := e.name, path := backup_dir ++ "/" ++ e.name,
              source := f (backup_dir ++ "/" ++ e.name), source_id := 0,
              size := e.size, modified := e.mtime } :: l)

/-! ## Backup filename convention

Formatting (`elasticsearch.py` line 72 / `qdrant.py` line 106):

```
f"<tag>_backup_usr={tenant_id}_sch={schedule_id}_src={backup_source_id}_created_at={timestamp}.tar.gz"
```

Parsing (`BaseBackupDestinationManager._parse_filename`, `base.py` lines
116-137) applies `os.path.basename` and then matches the anchored regex

```
^(\w+)_backup_usr=([a-f0-9\-]+)_sch=(\d+|None)_src=(\d+)_created_at=(\d+_\d+)\.(.+)$
```

raising `ValueError` when the match fails.  The regex is embedded as a
backtracking matcher: every greedy `X+` tries the candidate capture lengths
from the longest run of `X`-characters downwards, each against the full rest
of the pattern, and `(\d+|None)` tries the left alternative (with its full
backtracking) before the literal.  Character classes are the ASCII readings
of `\w`, `[a-f0-9\-]`, `\d` and `.` (all valid inputs are ASCII). -/

/-- `\w` (ASCII): letters, digits, underscore. -/
def isWordChar (c : Char) : Bool :=
  c.isAlpha || c.isDigit || c == '_'

/-- `[a-f0-9\-]`. -/
def isTenantChar (c : Char) : Bool :=
  (('a' ≤ c && c ≤ 'f') || c.isDigit) || c == '-'

/-- `.` in default mode: any character but a newline. -/
def isDotChar (c : Char) : Bool :=
  c != '\n'

/-- Length of the longest prefix of `p`-characters — the first capture a
greedy `p+` attempts. -/
def maxRun (p : Char → Bool) : List Char → Nat
  | [] => 0
  | c :: cs => if p c then maxRun p cs + 1 else 0

/-- Backtracking driver: try `f n`, `f (n-1)`, …, `f 1` and return the first
success. -/
def tryFrom {ρ : Type} (f : Nat → Option ρ) : Nat → Option ρ
  | 0 => none
  | n + 1 =>
    match f (n + 1) with
    | some r => some r
    | none => tryFrom f n

/-- Greedy `p+` with continuation `k` (capture, rest): longest candidate
first, backtracking into shorter candidates until `k` succeeds. -/
def greedyPlus {ρ : Type} (p : Char → Bool) (s : List Char)
    (k : List Char → List Char → Option ρ) : Option ρ :=
  tryFrom (fun i => k (s.take i) (s.drop i)) (maxRun p s)

/-- Match a literal and return the rest. -/
def expectLit : List Char → List Char → Option (List Char)
  | [], s => some s
  | _ :: _, [] => none
  | l :: ls, c :: cs => if c = l then expectLit ls cs else none

/-- `$` in default mode: end of input, or just before one final newline. -/
def matchEnd : List Char → Option Unit
  | [] => some ()
  | ['\n'] => some ()
  | _ => none

/-- The fields `_parse_filename` returns (all six captures, as strings). -/
structure ParsedFilename where
  source : String
  tenant_id : String
  schedule_id : String
  source_id : String
  timestamp : String
  extension : String
deriving Repr, DecidableEq

/-- Captures 5-6 and the anchor: `(\d+_\d+)\.(.+)$`. -/
def parseTail (g1 g2 g3 g4 : List Char) (s : List Char) : Option ParsedFilename :=
  greedyPlus Char.isDigit s (fun t1 rest =>
    (expectLit ['_'] rest).bind (fun rest =>
      greedyPlus Char.isDigit rest (fun t2 rest =>
        (expectLit ['.'] rest).bind (fun rest =>
          greedyPlus isDotChar rest (fun ext rest =>
            (matchEnd rest).map (fun _ =>
              { source := g1.asString, tenant_id := g2.asString,
                schedule_id := g3.asString, source_id := g4.asString,
                timestamp := (t1 ++ '_' :: t2).asString,
                extension := ext.asString }))))))

/-- Capture 4 and its delimiter: `(\d+)_created_at=`. -/
def parseSourceId (g1 g2 g3 : List Char) (s : List Char) : Option ParsedFilename :=
  greedyPlus Char.isDigit s (fun g4 rest =>
    (expectLit "_created_at=".toList rest).bind (parseTail g1 g2 g3 g4))

/-- Capture 3 and its delimiter: `(\d+|None)_src=` — the alternation tries
`\d+` (with full backtracking) first, then the literal `None`. -/
def parseSchedId (g1 g2 : List Char) (s : List Char) : Option ParsedFilename :=
  let after : List Char → List Char → Option ParsedFilename := fun g3 rest =>
    (expectLit "_src=".toList rest).bind (parseSourceId g1 g2 g3)
  match greedyPlus Char.isDigit s after with
  | some r => some r
  | none =>
    match expectLit "None".toList s with
    | some rest => after "None".toList rest
    | none => none

/-- Captures 1-2 with their delimiters:
`(\w+)_backup_usr=([a-f0-9\-]+)_sch=`. -/
def parseHead (s : List Char) : Option ParsedFilename :=
  greedyPlus isWordChar s (fun g1 rest =>
    (expectLit "_backup_usr=".toList rest).bind (fun rest =>
      greedyPlus isTenantChar rest (fun g2 rest =>
        (expectLit "_sch=".toList rest).bind (parseSchedId g1 g2))))

/-- `BaseBackupDestinationManager._parse_filename` (`base.py` lines 116-137):
`os.path.basename`, the anchored regex match, `ValueError` on failure. -/
def parse_filename (filename : String) : Except PyError ParsedFilename :=
  let base := pyBasename filename
  match parseHead base.toList with
  | some r => .ok r
  | none => .error (.valueError ("Invalid backup filename format: " ++ base))

/-- Python's f-string rendering of an `Optional[int]`: `None` or the decimal
digits. -/
def pyOptStr : Option Nat → String
  | none => "None"
  | some n => Nat.repr n

/-- The artifact filename the source adapters build
(`elasticsearch.py` line 72, `qdrant.py` line 106; both use extension
`.tar.gz`).  `source_tag` is the adapter's literal tag
(`"elasticsearch"` / `"qdrant"`), `timestamp` is
`datetime.now().strftime("%Y%m%d_%H%M%S")`. -/
def mkBackupFilename (source_tag tenant_id : String) (schedule_id : Option Nat)
    (backup_source_id : Nat) (timestamp : String) : String :=
  source_tag ++ "_backup_usr=" ++ tenant_id ++ "_sch=" ++ pyOptStr schedule_id ++
    "_src=" ++ Nat.repr backup_source_id ++ "_created_at=" ++ timestamp ++
    ".tar.gz"

/-! ## Auxiliary definitions used by the proofs -/

/-- Recognizer for rename/move operations (no upload ever performs one). -/
def isRename : FsOp → Bool
  | .rename _ _ => true
  | _ => false

/-- Numeric value of a decimal digit character. -/
def charVal (c : Char) : Nat := c.toNat - '0'.toNat

/-- Value of a decimal digit string (most significant digit first). -/
def valOfDigits (l : List Char) : Nat :=
  l.foldl (fun a c => 10 * a + charVal c) 0

/-- A concrete destination listing: three `postgres` artifacts with distinct
modification times and one unrelated `qdrant` artifact. -/
def c1Backups : List BackupDetails :=
  [{ name := "p2", path := "p2", source := "postgres", source_id := 1,
     size := 1, modified := 2 },
   { name := "q9", path := "q9", source := "qdrant", source_id := 2,
     size := 1, modified := 9 },
   { name := "p1", path := "p1", source := "postgres", source_id := 1,
     size := 1, modified := 1 },
   { name := "p3", path := "p3", source := "postgres", source_id := 1,
     size := 1, modified := 3 }]

/-- A concrete inactive schedule row, used to instantiate theorems. -/
def sampleInactiveSchedule : Schedule :=
  { id := 1, tenant_id := "t", name := "n", source_id := 1,
    destination_id := 2, keep_n := 3, schedule := "0 2 * * *",
    is_active := false, last_run := none, next_run := none,
    created_at := 0, updated_at := 0 }

/-! # Theorems -/

/-! ## C5 — registry error behaviour -/

/-- C5, counterexample.  The claim says an unknown type tag fails with an
`UnsupportedAdapterType` error.  No class of that name exists anywhere in
the repository.  The destination factory indexes a dict of classes, so an
unknown tag raises `KeyError`.  The source factory first **eagerly
constructs** all four adapters: with credentials carrying no `api_key` and
no `login`/`password`, `VaultBackupManager.__init__` raises `ValueError`
before the lookup even happens — so at that concrete input the code raises
`ValueError`, and with authenticated Vault credentials an unknown tag
raises `KeyError`; neither is an `UnsupportedAdapterType` error. -/
theorem c5_unknown_tag_raises_keyerror :
    BackupDestinationManager.create_from_type
      { url := "s3://bucket" } "ftp" = .error (.keyError "ftp")
    ∧ BackupManager.create_from_type { url := "postgres://host" } "mysql"
        (.ok ()) true =
      .error (.valueError "Either api_key or login/password credentials are required")
    ∧ BackupManager.create_from_type
        { url := "http://vault:8200", api_key := some "tok" } "mysql"
        (.ok ()) true =
      .error (.keyError "mysql")
    ∧ (∀ tag, (Except.error (.keyError "ftp") :
        Except PyError DestinationAdapter) ≠ .error (.unsupportedAdapterType tag))
    ∧ (∀ tag, (Except.error
        (.valueError "Either api_key or login/password credentials are required") :
        Except PyError SourceAdapter) ≠ .error (.unsupportedAdapterType tag))
    ∧ (∀ tag, (Except.error (.keyError "mysql") :
        Except PyError SourceAdapter) ≠ .error (.unsupportedAdapterType tag)) := by
  refine ⟨rfl, rfl, rfl, ?_, ?_, ?_⟩ <;> intro tag h <;> simp at h

/-- C5, amended: the destination factory raises `KeyError` for every
unregistered tag and returns the adapter built from the given credentials
for every registered one.  The source factory first eagerly constructs all
four adapters — so any exception of `VaultBackupManager.__init__`
(`ValueError` without usable credentials, `RuntimeError`/transport errors
from the network authentication) propagates regardless of the requested
tag — and only once Vault construction succeeds does it index the dict:
`KeyError` for an unregistered tag, the credentials-built adapter for a
registered one.  No `UnsupportedAdapterType` error exists. -/
theorem c5_registry_amended (credentials : Credentials) (tag : String)
    (vault_userpass_login : Except PyError Unit) (vault_is_authenticated : Bool)
    (hdest : tag ∉ ["s3", "local_fs", "sftp"])
    (hsrc : tag ∉ ["vault", "qdrant", "postgres", "elasticsearch"]) :
    BackupDestinationManager.create_from_type credentials tag =
      .error (.keyError tag)
    ∧ BackupDestinationManager.create_from_type credentials "s3" =
        .ok (.s3 credentials)
    ∧ BackupDestinationManager.create_from_type credentials "local_fs" =
        .ok (.local_fs credentials)
    ∧ BackupDestinationManager.create_from_type credentials "sftp" =
        .ok (.sftp credentials)
    ∧ (∀ e, vault_initialize_client credentials vault_userpass_login
          vault_is_authenticated = .error e →
        BackupManager.create_from_type credentials tag vault_userpass_login
          vault_is_authenticated = .error e)
    ∧ (vault_initialize_client credentials vault_userpass_login
          vault_is_authenticated = .ok () →
        BackupManager.create_from_type credentials tag vault_userpass_login
          vault_is_authenticated = .error (.keyError tag))
    ∧ (vault_initialize_client credentials vault_userpass_login
          vault_is_authenticated = .ok () →
        BackupManager.create_from_type credentials "vault" vault_userpass_login
          vault_is_authenticated = .ok (.vault credentials)
        ∧ BackupManager.create_from_type credentials "qdrant" vault_userpass_login
          vault_is_authenticated = .ok (.qdrant credentials)
        ∧ BackupManager.create_from_type credentials "postgres" vault_userpass_login
          vault_is_authenticated = .ok (.postgres credentials)
        ∧ BackupManager.create_from_type credentials "elasticsearch"
          vault_userpass_login vault_is_authenticated =
            .ok (.elasticsearch credentials))
    ∧ (pyTruthy credentials.api_key = false →
        (pyTruthy credentials.login = false ∨ pyTruthy credentials.password = false) →
        BackupManager.create_from_type credentials tag vault_userpass_login
          vault_is_authenticated =
          .error (.valueError "Either api_key or login/password credentials are required")) := by
  simp only [List.mem_cons, List.not_mem_nil, or_false, not_or] at hdest hsrc
  obtain ⟨h1, h2, h3⟩ := hdest
  obtain ⟨h4, h5, h6, h7⟩ := hsrc
  refine ⟨?_, rfl, rfl, rfl, ?_, ?_, ?_, ?_⟩
  · simp [BackupDestinationManager.create_from_type, h1, h2, h3]
  · intro e he
    simp [BackupManager.create_from_type, he]
  · intro hok
    simp [BackupManager.create_from_type, hok, h4, h5, h6, h7]
  · intro hok
    refine ⟨?_, ?_, ?_, ?_⟩ <;> simp [BackupManager.create_from_type, hok]
  · intro hnoapi hnolp
    have hfail : vault_initialize_client credentials vault_userpass_login
        vault_is_authenticated =
        .error (.valueError "Either api_key or login/password credentials are required") := by
      have hlp : (pyTruthy credentials.login && pyTruthy credentials.password) =
          false := by
        rcases hnolp with h | h <;> simp [h]
      simp [vault_initialize_client, hnoapi, hlp]
    simp [BackupManager.create_from_type, hfail]

/-- C5, witness for `c5_registry_amended` at `tag := "ftp"`: unauthenticated
credentials make the source factory raise `ValueError` from the eager Vault
construction; with a Vault token and successful authentication the unknown
tag raises `KeyError`; the destination factory raises `KeyError` directly. -/
theorem c5_registry_amended_witness :
    BackupDestinationManager.create_from_type { url := "u" } "ftp" =
      .error (.keyError "ftp")
    ∧ BackupManager.create_from_type { url := "u" } "ftp" (.ok ()) true =
      .error (.valueError "Either api_key or login/password credentials are required")
    ∧ BackupManager.create_from_type { url := "u", api_key := some "tok" }
        "ftp" (.ok ()) true = .error (.keyError "ftp") := by
  have h1 := c5_registry_amended { url := "u" } "ftp" (.ok ()) true
    (by decide) (by decide)
  have h2 := c5_registry_amended { url := "u", api_key := some "tok" } "ftp"
    (.ok ()) true (by decide) (by decide)
  exact ⟨h1.1, h1.2.2.2.2.2.2.2 (by decide) (Or.inl (by decide)),
    h2.2.2.2.2.2.1 rfl⟩

/-! ## C7 — `update_last_run` publishes no reload; the four real mutations
publish exactly one -/

/-- C7: for every schedule and `last_run` value, `update_last_run` rewrites
only the `last_run` and `updated_at` fields of the found row and publishes
no reload notification, while `create_schedule`, `update_schedule`,
`delete_schedule` and `toggle_schedule` each publish exactly one
notification after committing their mutation. -/
theorem c7_update_last_run_publishes_no_reload
    (db : List Schedule) (sid : Nat) (tid : String) (lr now : Nat)
    (s : Schedule) (h : get_schedule db sid tid = some s) :
    update_last_run db sid tid lr now =
      (some { s with last_run := some lr, updated_at := now },
        commit_row db { s with last_run := some lr, updated_at := now }, 0)
    ∧ (∀ s', (update_last_run db sid tid lr now).1 = some s' →
        s'.id = s.id ∧ s'.tenant_id = s.tenant_id ∧ s'.name = s.name ∧
        s'.source_id = s.source_id ∧ s'.destination_id = s.destination_id ∧
        s'.keep_n = s.keep_n ∧ s'.schedule = s.schedule ∧
        s'.is_active = s.is_active ∧ s'.next_run = s.next_run ∧
        s'.created_at = s.created_at ∧
        s'.last_run = some lr ∧ s'.updated_at = now)
    ∧ (∀ name source_id destination_id keep_n cron is_active new_id,
        (create_schedule db tid name source_id destination_id keep_n cron
          is_active new_id now).2.2 = 1)
    ∧ (∀ name source_id destination_id keep_n cron is_active next_run,
        (update_schedule db sid tid name source_id destination_id keep_n cron
          is_active next_run now).2.2 = 1)
    ∧ (delete_schedule db sid tid).2.2 = 1
    ∧ (toggle_schedule db sid tid now).2.2 = 1 := by
  refine ⟨?_, ?_, ?_, ?_, ?_, ?_⟩
  · simp [update_last_run, h]
  · intro s' hs'
    simp [update_last_run, h] at hs'
    subst hs'
    simp
  · intro name source_id destination_id keep_n cron is_active new_id
    simp [create_schedule]
  · intro name source_id destination_id keep_n cron is_active next_run
    simp [update_schedule, h]
  · simp [delete_schedule, h]
  · simp [toggle_schedule, h]

/-- C7, witness at a one-row table. -/
theorem c7_update_last_run_witness :
    (update_last_run
      [{ id := 1, tenant_id := "t", name := "n", source_id := 1,
         destination_id := 2, keep_n := 3, schedule := "0 2 * * *",
         is_active := true, last_run := none, next_run := none,
         created_at := 0, updated_at := 0 }] 1 "t" 5 9).2.2 = 0
    ∧ (toggle_schedule
      [{ id := 1, tenant_id := "t", name := "n", source_id := 1,
         destination_id := 2, keep_n := 3, schedule := "0 2 * * *",
         is_active := true, last_run := none, next_run := none,
         created_at := 0, updated_at := 0 }] 1 "t" 9).2.2 = 1 := by
  have h := c7_update_last_run_publishes_no_reload
    [{ id := 1, tenant_id := "t", name := "n", source_id := 1,
       destination_id := 2, keep_n := 3, schedule := "0 2 * * *",
       is_active := true, last_run := none, next_run := none,
       created_at := 0, updated_at := 0 }] 1 "t" 5 9
    { id := 1, tenant_id := "t", name := "n", source_id := 1,
      destination_id := 2, keep_n := 3, schedule := "0 2 * * *",
      is_active := true, last_run := none, next_run := none,
      created_at := 0, updated_at := 0 } (by decide)
  exact ⟨by rw [h.1], h.2.2.2.2.2⟩

/-! ## C10 — `LocalFSBackupDestination.list_backups` raises on any regular
file -/

/-- C10: for every backup directory holding at least one regular file,
`list_backups` raises `AttributeError` (the methods `_extract_backup_source`
and `_extract_backup_source_id` are defined neither on
`LocalFSBackupDestination` nor on `BaseBackupDestinationManager`); with only
directories (or nothing) it returns `[]`. -/
theorem c10_list_backups_attribute_error (backup_dir : String)
    (entries : List FsEntry) :
    ((∃ e ∈ entries, e.isDir = false) →
      localfs_list_backups backup_dir entries =
        .error (.attributeError "_extract_backup_source"))
    ∧ ((∀ e ∈ entries, e.isDir = true) →
        localfs_list_backups backup_dir entries = .ok [])
    ∧ localFSHasAttr "_extract_backup_source" = false
    ∧ localFSHasAttr "_extract_backup_source_id" = false := by
  refine ⟨?_, ?_, by decide, by decide⟩
  · intro hex
    induction entries with
    | nil => simp at hex
    | cons e rest ih =>
      obtain ⟨x, hx, hxd⟩ := hex
      rcases List.mem_cons.mp hx with rfl | hxrest
      · simp [localfs_list_backups, hxd, extract_backup_source_impl,
          localFSHasAttr, localFSMethods, baseDestinationMethods]
      · by_cases he : e.isDir
        · simpa [localfs_list_backups, he] using ih ⟨x, hxrest, hxd⟩
        · simp [localfs_list_backups, he, extract_backup_source_impl,
            localFSHasAttr, localFSMethods, baseDestinationMethods]
  · intro hall
    induction entries with
    | nil => simp [localfs_list_backups]
    | cons e rest ih =>
      have he := hall e (by simp)
      simpa [localfs_list_backups, he] using
        ih (fun x hx => hall x (List.mem_cons_of_mem _ hx))

/-- C10, witness: one regular file raises; one directory-only listing
returns `[]`. -/
theorem c10_list_backups_witness :
    localfs_list_backups "/backups"
      [{ name := "a.txt", isDir := false, size := 3, mtime := 5 }] =
      .error (.attributeError "_extract_backup_source")
    ∧ localfs_list_backups "/backups"
      [{ name := "sub", isDir := true, size := 0, mtime := 0 }] = .ok [] := by
  refine ⟨(c10_list_backups_attribute_error "/backups" _).1 ?_,
    (c10_list_backups_attribute_error "/backups" _).2.1 ?_⟩
  · exact ⟨{ name := "a.txt", isDir := false, size := 3, mtime := 5 }, by simp, rfl⟩
  · intro e he
    simp at he
    simp [he]

/-! ## C6 — the executor's pruning loop aborts on the first failed delete -/

/-- C6, counterexample.  Three `postgres` artifacts with modification times
1 < 2 < 3 and `keep_n = 1`: the excess list is the two oldest.  Deleting the
first (`"old1"`) fails; the claim says the executor still attempts the
remaining excess artifact (`"old2"`, whose deletion would succeed), but the
loop in `create_backup` has no per-iteration `try`, so the exception
propagates at once: nothing is deleted and `"old2"` is never visited. -/
theorem c6_prune_abort_counterexample :
    retention_step
      (fun p => if p = "old1" then .error (.runtimeError "denied") else .ok ())
      [{ name := "o1", path := "old1", source := "postgres", source_id := 1,
         size := 1, modified := 1 },
       { name := "o2", path := "old2", source := "postgres", source_id := 1,
         size := 1, modified := 2 },
       { name := "n1", path := "new1", source := "postgres", source_id := 1,
         size := 1, modified := 3 }]
      "postgres" (some 1) = ([], some (.runtimeError "denied"))
    ∧ (fun p => if p = "old1" then
          (.error (.runtimeError "denied") : Except PyError Unit)
        else .ok ()) "old2" = .ok () := by
  constructor
  · rfl
  · rfl

/-- C6, amended: when deleting one excess artifact fails, the executor's
pruning loop (`create_backup`, `services/worker.py` lines 158-167) aborts at
once — the exception propagates and no later excess artifact is attempted —
whereas the (never-called) adapter helper `_delete_extra_backups` logs and
continues past failures. -/
theorem c6_prune_abort_amended (del : String → Except PyError Unit)
    (b : BackupDetails) (rest : List BackupDetails) (e : PyError)
    (hfail : del b.path = .error e) :
    prune_loop del (b :: rest) = ([], some e)
    ∧ delete_extra_loop del (b :: rest) = delete_extra_loop del rest
    ∧ (∀ c ∈ rest, del c.path = .ok () →
        c.path ∈ delete_extra_loop del (b :: rest)) := by
  refine ⟨by simp [prune_loop, hfail], by simp [delete_extra_loop, hfail], ?_⟩
  intro c hc hdel
  have main : ∀ l : List BackupDetails, c ∈ l → c.path ∈ delete_extra_loop del l := by
    intro l
    induction l with
    | nil => simp
    | cons a l ih =>
      intro hm
      rcases List.mem_cons.mp hm with rfl | hm'
      · simp [delete_extra_loop, hdel]
      · cases ha : del a.path with
        | error _ => simpa [delete_extra_loop, ha] using ih hm'
        | ok _ => simp [delete_extra_loop, ha, ih hm']
  simpa [delete_extra_loop, hfail] using main rest hc

/-- C6, witness for `c6_prune_abort_amended` at a concrete failing delete. -/
theorem c6_prune_abort_witness :
    prune_loop
      (fun p => if p = "a" then .error (.runtimeError "denied") else .ok ())
      [{ name := "a", path := "a", source := "postgres", source_id := 1,
         size := 1, modified := 1 },
       { name := "b", path := "b", source := "postgres", source_id := 1,
         size := 1, modified := 2 }] = ([], some (.runtimeError "denied")) :=
  (c6_prune_abort_amended
    (fun p => if p = "a" then .error (.runtimeError "denied") else .ok ())
    { name := "a", path := "a", source := "postgres", source_id := 1,
      size := 1, modified := 1 }
    [{ name := "b", path := "b", source := "postgres", source_id := 1,
       size := 1, modified := 2 }]
    (.runtimeError "denied") (by rfl)).1

/-! ## C4 — restore's error conversion -/

/-- C4, counterexample.  The claim says a credential-decryption failure or a
transport failure during `get_backup` still raises.  In
`services/worker.py` the whole body sits under
`except ValueError: return False` / `except Exception: return False`, so at
these concrete failing inputs the task returns the plain boolean `False`
(and, the fetch never having produced a local copy, no cleanup runs). -/
theorem c4_restore_counterexample :
    services_restore_from_backup (.ok ())
      (.error (.valueError "Failed to decrypt source password"))
      (.ok ()) (.ok "loc") (fun _ => .ok ()) = (false, false)
    ∧ services_restore_from_backup (.ok ()) (.ok ()) (.ok ())
      (.error (.runtimeError "Failed to download backup from S3: timeout"))
      (fun _ => .ok ()) = (false, false) := by
  exact ⟨rfl, rfl⟩

/-- C4, amended: in `services/worker.py`, `restore_from_backup` never raises —
resolution, decryption and `get_backup` failures are all converted into the
return value `False` (with no local copy to clean), and once `get_backup`
succeeds the fetched copy is always removed, with `True`/`False` reporting
the restore step's outcome.  Only the older `src/backend/src/worker.py`
variant propagates a `get_backup` failure to the caller. -/
theorem c4_restore_semantics (resolve dsrc ddst : Except PyError Unit)
    (fetch : Except PyError String) (restore : String → Except PyError Unit) :
    ((services_restore_from_backup resolve dsrc ddst fetch restore).1 = true ↔
      (resolve = .ok () ∧ dsrc = .ok () ∧ ddst = .ok () ∧
        ∃ lp, fetch = .ok lp ∧ restore lp = .ok ()))
    ∧ (∀ lp, fetch = .ok lp → resolve = .ok () → dsrc = .ok () → ddst = .ok () →
        (services_restore_from_backup resolve dsrc ddst fetch restore).2 = true)
    ∧ (∀ e, fetch = .error e → services_restore_from_backup resolve dsrc ddst
        fetch restore = (false, false))
    ∧ (∀ e, dsrc = .error e → services_restore_from_backup resolve dsrc ddst
        fetch restore = (false, false))
    ∧ (∀ e, fetch = .error e →
        worker_restore_from_backup (.ok ()) fetch restore = .error e)
    ∧ (∀ lp, fetch = .ok lp →
        worker_restore_from_backup (.ok ()) fetch restore =
          match restore lp with
          | .ok _ => .ok (true, true)
          | .error _ => .ok (false, true)) := by
  refine ⟨?_, ?_, ?_, ?_, ?_, ?_⟩
  · cases resolve with
    | error e => simp [services_restore_from_backup]
    | ok u =>
      cases dsrc with
      | error e => simp [services_restore_from_backup]
      | ok u2 =>
        cases ddst with
        | error e => simp [services_restore_from_backup]
        | ok u3 =>
          cases fetch with
          | error e => simp [services_restore_from_backup]
          | ok lp =>
            cases hr : restore lp with
            | ok u4 => simp [services_restore_from_backup, hr]
            | error e => simp [services_restore_from_backup, hr]
  · intro lp hf hr hs hd
    subst hf; subst hr; subst hs; subst hd
    cases hre : restore lp <;> simp [services_restore_from_backup, hre]
  · intro e hf
    subst hf
    cases resolve with
    | error _ => rfl
    | ok u =>
      cases dsrc with
      | error _ => rfl
      | ok u2 => cases ddst <;> rfl
  · intro e hd
    subst hd
    cases resolve <;> rfl
  · intro e hf
    subst hf
    rfl
  · intro lp hf
    subst hf
    cases hre : restore lp <;> simp [worker_restore_from_backup, hre]

/-- C4, witness for `c4_restore_semantics` at concrete outcomes: a failing
fetch yields `(false, false)` from the services task but raises from the
older worker task. -/
theorem c4_restore_semantics_witness :
    services_restore_from_backup (.ok ()) (.ok ()) (.ok ())
      (.error (.runtimeError "boom")) (fun _ => .ok ()) = (false, false)
    ∧ worker_restore_from_backup (.ok ()) (.error (.runtimeError "boom"))
      (fun _ => .ok ()) = .error (.runtimeError "boom") := by
  have h := c4_restore_semantics (.ok ()) (.ok ()) (.ok ())
    (.error (.runtimeError "boom")) (fun _ => .ok ())
  exact ⟨h.2.2.1 _ rfl, h.2.2.2.2.1 _ rfl⟩

/-! ## C3 — uploads write the final name directly, with no temporary -/

/-- C3, counterexample.  The claim says every destination adapter first
writes under a temporary provisional name and then renames.  At these
concrete inputs each adapter performs exactly one storage operation — a
direct write to the name it returns as the final remote path — and no
rename operation occurs in any trace. -/
theorem c3_upload_counterexample :
    localfs_upload_backup "/backups" "/tmp/file.tar.gz" true false "20240101_120000" =
      ([.copy "/tmp/file.tar.gz" "/backups/file.tar.gz"], .ok "/backups/file.tar.gz")
    ∧ s3_upload_backup "bkt" "" "/tmp/file.tar.gz" true none =
      ([.s3UploadFile "/tmp/file.tar.gz" "bkt" "file.tar.gz"], .ok "file.tar.gz")
    ∧ sftp_upload_backup "/dir" "/tmp/file.tar.gz" true none =
      ([.sftpPut "/tmp/file.tar.gz" "/dir/file.tar.gz"], .ok "/dir/file.tar.gz")
    ∧ ([FsOp.copy "/tmp/file.tar.gz" "/backups/file.tar.gz",
        FsOp.s3UploadFile "/tmp/file.tar.gz" "bkt" "file.tar.gz",
        FsOp.sftpPut "/tmp/file.tar.gz" "/dir/file.tar.gz"]).all
        (fun op => !isRename op) = true := by
  exact ⟨rfl, rfl, rfl, by decide⟩

/-- C3, amended: for an existing local file each adapter's `upload_backup`
performs a single direct write whose target is exactly the final remote name
it returns (never a temporary name, never a rename); a missing local file
raises `FileNotFoundError` before any write; an S3/SFTP backend failure is
re-raised as `RuntimeError` with no remote cleanup operation — and a listing
therefore never has any provisional name to exclude. -/
theorem c3_uploads_direct_to_final_name
    (backup_dir lp now bucket pfx rdir : String) (dest_exists : Bool) :
    (∃ dst, localfs_upload_backup backup_dir lp true dest_exists now =
      ([FsOp.copy lp dst], .ok dst))
    ∧ localfs_upload_backup backup_dir lp false dest_exists now =
      ([], .error (.fileNotFoundError lp))
    ∧ (∃ key, s3_upload_backup bucket pfx lp true none =
        ([FsOp.s3UploadFile lp bucket key], .ok key))
    ∧ (∀ m, ∃ key, s3_upload_backup bucket pfx lp true (some m) =
        ([FsOp.s3UploadFile lp bucket key],
          .error (.runtimeError ("Failed to upload backup to S3: " ++ m))))
    ∧ (∃ rp, sftp_upload_backup rdir lp true none =
        ([FsOp.sftpPut lp rp], .ok rp))
    ∧ (∀ m, ∃ rp, sftp_upload_backup rdir lp true (some m) =
        ([FsOp.sftpPut lp rp],
          .error (.runtimeError ("Failed to upload backup to SFTP: " ++ m)))) := by
  refine ⟨?_, by simp [localfs_upload_backup], ?_, ?_, ?_, ?_⟩
  · cases dest_exists with
    | false =>
      exact ⟨backup_dir ++ "/" ++ pyBasename lp, by simp [localfs_upload_backup]⟩
    | true =>
      exact ⟨backup_dir ++ "/" ++ ((splitext (pyBasename lp)).1 ++ "_" ++ now ++
        (splitext (pyBasename lp)).2), by simp [localfs_upload_backup]⟩
  · exact ⟨get_s3_key pfx (pyBasename lp), by simp [s3_upload_backup]⟩
  · intro m
    exact ⟨get_s3_key pfx (pyBasename lp), by simp [s3_upload_backup]⟩
  · exact ⟨replaceDoubleSlash (rdir ++ "/" ++ pyBasename lp),
      by simp [sftp_upload_backup]⟩
  · intro m
    exact ⟨replaceDoubleSlash (rdir ++ "/" ++ pyBasename lp),
      by simp [sftp_upload_backup]⟩

/-! ## C1 — retention deletes exactly the N−K oldest same-type artifacts -/

/-- When every delete call succeeds, the pruning loop deletes exactly the
listed paths, in order, and raises nothing. -/
theorem prune_loop_all_ok (del : String → Except PyError Unit)
    (h : ∀ p, del p = .ok ()) :
    ∀ l : List BackupDetails, prune_loop del l = (l.map (fun b => b.path), none) := by
  intro l
  induction l with
  | nil => rfl
  | cons b rest ih => simp [prune_loop, h, ih]

/-- C1: with `0 < K < N` same-type artifacts and all deletes succeeding, the
retention step of `create_backup` deletes exactly the `N−K` oldest artifacts
of the triggering source's type (ascending by modification time, which is
unambiguous under the distinctness hypothesis), the `K` newest survive, and
no artifact of a different source type is deleted. -/
theorem c1_retention_deletes_oldest (backups : List BackupDetails)
    (source_type : String) (K : Nat) (del : String → Except PyError Unit)
    (hdel : ∀ p, del p = .ok ()) (hK : 0 < K)
    (hKN : K < (relevant_backups backups source_type).length)
    (hdistinct : (relevant_backups backups source_type).Pairwise
      (fun a b => a.modified ≠ b.modified)) :
    retention_step del backups source_type (some K) =
      ((excess_backups backups source_type K).map (fun b => b.path), none)
    ∧ (excess_backups backups source_type K).length =
        (relevant_backups backups source_type).length - K
    ∧ ((relevant_backups backups source_type).drop
        ((relevant_backups backups source_type).length - K)).length = K
    ∧ excess_backups backups source_type K ++
        (relevant_backups backups source_type).drop
          ((relevant_backups backups source_type).length - K) =
        relevant_backups backups source_type
    ∧ (relevant_backups backups source_type).Perm
        (backups.filter (fun b => b.source == source_type))
    ∧ (∀ b ∈ excess_backups backups source_type K, b.source = source_type)
    ∧ (∀ b ∈ excess_backups backups source_type K,
        ∀ c ∈ (relevant_backups backups source_type).drop
          ((relevant_backups backups source_type).length - K),
          b.modified < c.modified)
    ∧ (∀ b ∈ backups, b.source ≠ source_type →
        ∀ c ∈ excess_backups backups source_type K, c ≠ b) := by
  set rel := relevant_backups backups source_type with hrel
  have hperm : rel.Perm (backups.filter (fun b => b.source == source_type)) :=
    List.perm_insertionSort _ _
  have hsorted : rel.Pairwise (fun a b => a.modified ≤ b.modified) := by
    haveI : IsTotal BackupDetails (fun a b => a.modified ≤ b.modified) :=
      ⟨fun a b => Nat.le_total a.modified b.modified⟩
    haveI : IsTrans BackupDetails (fun a b => a.modified ≤ b.modified) :=
      ⟨fun a b c hab hbc => Nat.le_trans hab hbc⟩
    exact List.sorted_insertionSort _ _
  have hsrc_rel : ∀ b ∈ rel, b.source = source_type := by
    intro b hb
    have hb' := hperm.mem_iff.mp hb
    have := List.of_mem_filter hb'
    simpa using this
  have hsplit : excess_backups backups source_type K ++
      rel.drop (rel.length - K) = rel := by
    simp only [excess_backups, ← hrel]
    exact List.take_append_drop (rel.length - K) rel
  have hlen_excess : (excess_backups backups source_type K).length =
      rel.length - K := by
    simp [excess_backups, ← hrel]
  have hcross : ∀ b ∈ excess_backups backups source_type K,
      ∀ c ∈ rel.drop (rel.length - K), b.modified < c.modified := by
    have hs' := hsorted
    have hd' := hdistinct
    rw [← hsplit] at hs' hd'
    have h1 := (List.pairwise_append.mp hs').2.2
    have h2 := (List.pairwise_append.mp hd').2.2
    intro b hb c hc
    exact Nat.lt_of_le_of_ne (h1 b hb c hc) (h2 b hb c hc)
  have hsrc_excess : ∀ b ∈ excess_backups backups source_type K,
      b.source = source_type := by
    intro b hb
    apply hsrc_rel
    rw [← hsplit]
    exact List.mem_append_left _ hb
  obtain ⟨k, rfl⟩ : ∃ k, K = k + 1 := ⟨K - 1, by omega⟩
  refine ⟨?_, hlen_excess, ?_, hsplit, hperm, hsrc_excess, hcross, ?_⟩
  · simp only [retention_step]
    exact prune_loop_all_ok del hdel _
  · rw [List.length_drop]
    omega
  · intro b hb hbs c hc
    intro hcb
    exact hbs (hcb ▸ hsrc_excess c hc)

/-- C1, witness: four artifacts (three `postgres`, times 1 < 2 < 3, plus an
unrelated `qdrant` one), `keep_n = 1`: the two oldest `postgres` artifacts
are deleted. -/
theorem c1_retention_witness :
    retention_step (fun _ => .ok ()) c1Backups "postgres" (some 1) =
      ((excess_backups c1Backups "postgres" 1).map (fun b => b.path), none) :=
  (c1_retention_deletes_oldest c1Backups "postgres" 1 (fun _ => .ok ())
    (fun _ => rfl) (by decide) (by decide) (by decide)).1

/-! ## Shared lemmas about `load_schedules_from_db` -/

/-- When every row's cron expression parses, the rebuilt table is `.ok` and
contains an entry under every row's key — with no regard to `is_active`. -/
theorem load_schedules_ok_of_all_parse (db : List Schedule)
    (h : ∀ s ∈ db, ∃ c, parse_cron_exp s.schedule = .ok c) :
    ∃ table, load_schedules_from_db db = .ok table ∧
      ∀ t ∈ db, ∃ e, (schedule_key t, e) ∈ table := by
  induction db with
  | nil => exact ⟨[], rfl, by simp⟩
  | cons a l ih =>
    obtain ⟨c, hc⟩ := h a (by simp)
    obtain ⟨tb, htb, hmem⟩ := ih (fun s hs => h s (List.mem_cons_of_mem _ hs))
    refine ⟨(schedule_key a, schedule_entry a c) :: tb, ?_, ?_⟩
    · simp [load_schedules_from_db, hc, htb]
    · intro t ht
      rcases List.mem_cons.mp ht with rfl | ht'
      · exact ⟨schedule_entry t c, by simp⟩
      · obtain ⟨e, he⟩ := hmem t ht'
        exact ⟨e, by simp [he]⟩

/-- If any single row's cron expression fails to parse, the whole rebuild
raises (no per-entry recovery exists in `load_schedules_from_db`). -/
theorem load_schedules_error_of_bad_row (db : List Schedule)
    (hbad : ∃ s ∈ db, ∃ e, parse_cron_exp s.schedule = .error e) :
    ∃ e, load_schedules_from_db db = .error e := by
  induction db with
  | nil => simp at hbad
  | cons a l ih =>
    cases hpa : parse_cron_exp a.schedule with
    | error e =>
      exact ⟨e, by simp [load_schedules_from_db, hpa]⟩
    | ok c =>
      obtain ⟨s, hs, e, he⟩ := hbad
      rcases List.mem_cons.mp hs with rfl | hs'
      · rw [hpa] at he
        simp at he
      · obtain ⟨e', he'⟩ := ih ⟨s, hs', e, he⟩
        exact ⟨e', by simp [load_schedules_from_db, hpa, he']⟩

/-! ## C8 — cron validation happens only at table-build time, and one bad
row crashes the whole rebuild -/

/-- C8, counterexample.  The claim says a cron expression with a field count
other than 5 is rejected by `create_schedule` before the schedule is stored,
and that at table-build time a malformed expression fails only its own
entry.  In the code `create_schedule` performs no validation at all — the
six-field expression below is stored verbatim (and a reload is published) —
and `load_schedules_from_db` lets the `ValueError` from the one bad row
abort the whole rebuild, good rows included. -/
theorem c8_cron_validation_counterexample :
    (create_schedule [] "t" "n" 1 2 3 "1 2 3 4 5 6" true 1 0).1.schedule =
      "1 2 3 4 5 6"
    ∧ (create_schedule [] "t" "n" 1 2 3 "1 2 3 4 5 6" true 1 0).2.1 =
      [(create_schedule [] "t" "n" 1 2 3 "1 2 3 4 5 6" true 1 0).1]
    ∧ (create_schedule [] "t" "n" 1 2 3 "1 2 3 4 5 6" true 1 0).2.2 = 1
    ∧ parse_cron_exp "1 2 3 4 5 6" =
      .error (.valueError "Invalid cron expression. Expected 5 fields, got 6")
    ∧ load_schedules_from_db
      [{ id := 1, tenant_id := "t", name := "good", source_id := 1,
         destination_id := 2, keep_n := 3, schedule := "0 2 * * *",
         is_active := true, last_run := none, next_run := none,
         created_at := 0, updated_at := 0 },
       { id := 2, tenant_id := "t", name := "bad", source_id := 1,
         destination_id := 2, keep_n := 3, schedule := "1 2 3 4 5 6",
         is_active := true, last_run := none, next_run := none,
         created_at := 0, updated_at := 0 }] =
      .error (.valueError "Invalid cron expression. Expected 5 fields, got 6") := by
  exact ⟨rfl, rfl, rfl, rfl, rfl⟩

/-- C8, amended: the 5-field check lives only in `parse_cron_exp`;
`create_schedule` stores any cron string verbatim (publishing the reload);
and at table-build time one malformed row makes the entire
`load_schedules_from_db` raise, so the whole rebuild — not just that entry —
fails. -/
theorem c8_cron_validation_amended (db : List Schedule) (tenant name : String)
    (src dst k : Nat) (cron : String) (act : Bool) (nid now : Nat) :
    ((create_schedule db tenant name src dst k cron act nid now).1.schedule = cron
      ∧ (create_schedule db tenant name src dst k cron act nid now).2.1 =
          db ++ [(create_schedule db tenant name src dst k cron act nid now).1]
      ∧ (create_schedule db tenant name src dst k cron act nid now).2.2 = 1)
    ∧ ((pySplitSpace cron).length ≠ 5 →
        ∃ msg, parse_cron_exp cron = .error (.valueError msg))
    ∧ ((∃ s ∈ db, ∃ e, parse_cron_exp s.schedule = .error e) →
        ∃ e, load_schedules_from_db db = .error e) := by
  refine ⟨⟨rfl, rfl, rfl⟩, ?_, load_schedules_error_of_bad_row db⟩
  intro hlen
  unfold parse_cron_exp
  cases hsplit : pySplitSpace cron with
  | nil => exact ⟨_, rfl⟩
  | cons a l =>
    rw [hsplit] at hlen
    match l, hlen with
    | [], _ => exact ⟨_, rfl⟩
    | [b], _ => exact ⟨_, rfl⟩
    | [b, c], _ => exact ⟨_, rfl⟩
    | [b, c, d], _ => exact ⟨_, rfl⟩
    | [b, c, d, e], hlen => simp at hlen
    | b :: c :: d :: e :: f :: g, _ => exact ⟨_, rfl⟩

/-- C8, witness for `c8_cron_validation_amended` at a 6-field cron. -/
theorem c8_cron_validation_witness :
    ∃ msg, parse_cron_exp "1 2 3 4 5 6" = .error (.valueError msg) :=
  (c8_cron_validation_amended [] "t" "n" 1 2 3 "1 2 3 4 5 6" true 1 0).2.1
    (by decide)

/-! ## C9 — inactive schedules are still loaded into the dispatch table -/

/-- C9: `load_schedules_from_db` reads `select(Schedule)` with no filter on
`is_active`, so (when every cron parses) the rebuilt table has an entry for
every row regardless of its flag; in particular after `toggle_schedule`
flips a schedule off and the table is rebuilt, the now-inactive schedule is
still present under its key (and hence still fires). -/
theorem c9_inactive_schedule_still_loaded (db : List Schedule)
    (hvalid : ∀ s ∈ db, ∃ c, parse_cron_exp s.schedule = .ok c)
    (sid : Nat) (tid : String) (now : Nat) (s : Schedule)
    (hfound : get_schedule db sid tid = some s) :
    (∃ table, load_schedules_from_db db = .ok table ∧
      ∀ t ∈ db, ∃ e, (schedule_key t, e) ∈ table)
    ∧ (∃ s', (toggle_schedule db sid tid now).1 = some s' ∧
        s'.is_active = (!s.is_active) ∧
        ∃ table', load_schedules_from_db (toggle_schedule db sid tid now).2.1 =
          .ok table' ∧ ∃ e, (schedule_key s', e) ∈ table') := by
  have hs_mem : s ∈ db := by
    have := List.find?_some hfound
    exact List.mem_of_find?_eq_some hfound
  refine ⟨load_schedules_ok_of_all_parse db hvalid, ?_⟩
  refine ⟨{ s with is_active := !s.is_active, updated_at := now }, ?_, rfl, ?_⟩
  · simp [toggle_schedule, hfound]
  · have hdb' : (toggle_schedule db sid tid now).2.1 =
        commit_row db { s with is_active := !s.is_active, updated_at := now } := by
      simp [toggle_schedule, hfound]
    rw [hdb']
    have hvalid' : ∀ t ∈ commit_row db
        { s with is_active := !s.is_active, updated_at := now },
        ∃ c, parse_cron_exp t.schedule = .ok c := by
      intro t ht
      simp only [commit_row, List.mem_map] at ht
      obtain ⟨x, hx, hxe⟩ := ht
      by_cases hid : (x.id == s.id) = true
      · simp [hid] at hxe
        subst hxe
        exact hvalid s hs_mem
      · simp [hid] at hxe
        subst hxe
        exact hvalid x hx
    obtain ⟨tb, htb, hmem⟩ := load_schedules_ok_of_all_parse _ hvalid'
    refine ⟨tb, htb, ?_⟩
    apply hmem
    simp only [commit_row, List.mem_map]
    exact ⟨s, hs_mem, by simp⟩

/-- C9, witness: a single inactive schedule is loaded, and toggling an
active one off keeps it in the rebuilt table. -/
theorem c9_inactive_schedule_witness :
    (∃ table, load_schedules_from_db [sampleInactiveSchedule] = .ok table ∧
      ∀ t ∈ [sampleInactiveSchedule], ∃ e, (schedule_key t, e) ∈ table) := by
  have h := c9_inactive_schedule_still_loaded [sampleInactiveSchedule]
    (by intro s hs
        simp at hs
        subst hs
        exact ⟨_, rfl⟩)
    1 "t" 7 sampleInactiveSchedule (by decide)
  exact h.1

/-! ## C2 — helper lemmas on decimal renderings -/

/-- `Nat.repr` literally is `toDigits` packed into a string. -/
theorem repr_toList (n : Nat) : (Nat.repr n).toList = Nat.toDigits 10 n := rfl

theorem digitChar_isDigit {d : Nat} (h : d < 10) :
    (Nat.digitChar d).isDigit = true := by
  interval_cases d <;> decide

theorem digitChar_val {d : Nat} (h : d < 10) : charVal (Nat.digitChar d) = d := by
  interval_cases d <;> decide

theorem toDigitsCore_all_digits :
    ∀ (f n : Nat) (acc : List Char), (∀ c ∈ acc, c.isDigit = true) →
      ∀ c ∈ Nat.toDigitsCore 10 f n acc, c.isDigit = true := by
  intro f
  induction f with
  | zero =>
    intro n acc hacc c hc
    simp only [Nat.toDigitsCore] at hc
    exact hacc c hc
  | succ f ih =>
    intro n acc hacc c hc
    have hd : (Nat.digitChar (n % 10)).isDigit = true :=
      digitChar_isDigit (Nat.mod_lt _ (by decide))
    simp only [Nat.toDigitsCore] at hc
    by_cases h10 : n / 10 = 0
    · simp only [h10, if_pos] at hc
      rcases List.mem_cons.mp hc with rfl | hmem
      · exact hd
      · exact hacc c hmem
    · simp only [h10, if_neg, if_false] at hc
      refine ih (n / 10) (Nat.digitChar (n % 10) :: acc) ?_ c hc
      intro x hx
      rcases List.mem_cons.mp hx with rfl | hmem
      · exact hd
      · exact hacc x hmem

theorem foldl_val (l : List Char) (a : Nat) :
    l.foldl (fun x c => 10 * x + charVal c) a =
      a * 10 ^ l.length + valOfDigits l := by
  induction l generalizing a with
  | nil => simp [valOfDigits]
  | cons c cs ih =>
    simp only [List.foldl_cons, valOfDigits, List.length_cons]
    rw [ih (10 * a + charVal c), ih (10 * 0 + charVal c), pow_succ]
    ring

theorem valOfDigits_cons (c : Char) (l : List Char) :
    valOfDigits (c :: l) = charVal c * 10 ^ l.length + valOfDigits l := by
  simp only [valOfDigits, List.foldl_cons]
  rw [foldl_val]
  simp only [valOfDigits]
  ring

theorem toDigitsCore_val :
    ∀ (f n : Nat) (acc : List Char), n < 10 ^ f →
      valOfDigits (Nat.toDigitsCore 10 f n acc) =
        n * 10 ^ acc.length + valOfDigits acc := by
  intro f
  induction f with
  | zero =>
    intro n acc h
    have : n = 0 := by simpa using h
    subst this
    simp [Nat.toDigitsCore]
  | succ f ih =>
    intro n acc h
    have hmod : valOfDigits (Nat.digitChar (n % 10) :: acc) =
        (n % 10) * 10 ^ acc.length + valOfDigits acc := by
      rw [valOfDigits_cons, digitChar_val (Nat.mod_lt _ (by decide))]
    simp only [Nat.toDigitsCore]
    by_cases h10 : n / 10 = 0
    · simp only [h10, if_pos]
      rw [hmod, Nat.mod_eq_of_lt ((Nat.div_eq_zero_iff (by decide)).mp h10)]
    · simp only [h10, if_neg, if_false]
      have h' : n / 10 < 10 ^ f :=
        (Nat.div_lt_iff_lt_mul (by decide)).mpr (by rw [← pow_succ]; exact h)
      rw [ih (n / 10) (Nat.digitChar (n % 10) :: acc) h', hmod, List.length_cons,
        pow_succ]
      set q := n / 10 with hq
      set r := n % 10 with hr
      have hdm : 10 * q + r = n := Nat.div_add_mod n 10
      rw [← hdm]
      ring

theorem repr_all_digits (n : Nat) :
    ∀ c ∈ (Nat.repr n).toList, c.isDigit = true := by
  rw [repr_toList]
  exact toDigitsCore_all_digits (n + 1) n [] (by simp)

theorem repr_val (n : Nat) : valOfDigits (Nat.repr n).toList = n := by
  rw [repr_toList]
  have hlt : n < 10 ^ (n + 1) := by
    have h1 : n < 10 ^ n := Nat.lt_pow_self (by norm_num) n
    have h2 : 10 ^ n ≤ 10 ^ (n + 1) := Nat.pow_le_pow_right (by norm_num) (by omega)
    omega
  have := toDigitsCore_val (n + 1) n [] hlt
  simpa [valOfDigits, Nat.toDigits] using this

theorem repr_injective {m n : Nat} (h : Nat.repr m = Nat.repr n) : m = n := by
  have h2 : valOfDigits (Nat.repr m).toList = valOfDigits (Nat.repr n).toList := by
    rw [h]
  rwa [repr_val, repr_val] at h2

theorem repr_toList_ne_nil (n : Nat) : (Nat.repr n).toList ≠ [] := by
  rw [repr_toList]
  simp only [Nat.toDigits, Nat.toDigitsCore]
  by_cases h10 : n / 10 = 0
  · simp [h10]
  · simp only [h10, if_neg, if_false]
    intro hnil
    have := Nat.toDigitsCore_lens_eq 10 n (n / 10) (Nat.digitChar (n % 10)) []
    rw [hnil] at this
    simp at this

theorem pyOptStr_injective {a b : Option Nat} (h : pyOptStr a = pyOptStr b) :
    a = b := by
  cases a with
  | none =>
    cases b with
    | none => rfl
    | some n =>
      exfalso
      simp only [pyOptStr] at h
      have hd := repr_all_digits n 'N' (by rw [← h]; decide)
      simp at hd
  | some m =>
    cases b with
    | none =>
      exfalso
      simp only [pyOptStr] at h
      have hd := repr_all_digits m 'N' (by rw [h]; decide)
      simp at hd
    | some n => exact congrArg some (repr_injective h)

/-! ## C2 — lemmas on the backtracking matcher -/

theorem maxRun_cons_pos {p : Char → Bool} {c : Char} {cs : List Char}
    (h : p c = true) : maxRun p (c :: cs) = maxRun p cs + 1 := by
  simp [maxRun, h]

theorem maxRun_cons_neg {p : Char → Bool} {c : Char} {cs : List Char}
    (h : p c = false) : maxRun p (c :: cs) = 0 := by
  simp [maxRun, h]

theorem maxRun_append_of_all {p : Char → Bool} (a t : List Char)
    (h : ∀ c ∈ a, p c = true) :
    maxRun p (a ++ t) = a.length + maxRun p t := by
  induction a with
  | nil => simp
  | cons c cs ih =>
    rw [List.cons_append, maxRun_cons_pos (h c (by simp)),
      ih (fun x hx => h x (List.mem_cons_of_mem _ hx))]
    simp [List.length_cons]
    omega

theorem tryFrom_succ_none {ρ : Type} {f : Nat → Option ρ} {n : Nat}
    (h : f (n + 1) = none) : tryFrom f (n + 1) = tryFrom f n := by
  simp [tryFrom, h]

theorem tryFrom_succ_some {ρ : Type} {f : Nat → Option ρ} {n : Nat} {v : ρ}
    (h : f (n + 1) = some v) : tryFrom f (n + 1) = some v := by
  simp [tryFrom, h]

theorem expectLit_append (l r : List Char) : expectLit l (l ++ r) = some r := by
  induction l with
  | nil => rfl
  | cons c cs ih => simp [expectLit, ih]

theorem drop_append_len {α : Type} (a t : List α) (j : Nat) :
    (a ++ t).drop (a.length + j) = t.drop j := by
  induction a with
  | nil => simp
  | cons c cs ih =>
    have hlen : (c :: cs).length + j = (cs.length + j) + 1 := by
      simp [List.length_cons]
      omega
    rw [List.cons_append, hlen, List.drop_succ_cons]
    exact ih

/-- Greedy `p+` when the stop is clean: the run ends exactly at `a` (nothing
of `rest` extends it) and the continuation accepts the full run, so the
first — longest — candidate already succeeds. -/
theorem greedyPlus_exact {ρ : Type} {p : Char → Bool} {a rest : List Char}
    {k : List Char → List Char → Option ρ} {v : ρ}
    (ha : a ≠ []) (hall : ∀ c ∈ a, p c = true) (hstop : maxRun p rest = 0)
    (hk : k a rest = some v) :
    greedyPlus p (a ++ rest) k = some v := by
  unfold greedyPlus
  rw [maxRun_append_of_all a rest hall, hstop, Nat.add_zero]
  obtain ⟨m, hm⟩ : ∃ m, a.length = m + 1 := by
    cases a with
    | nil => exact absurd rfl ha
    | cons c cs => exact ⟨cs.length, rfl⟩
  rw [hm]
  apply tryFrom_succ_some
  show k ((a ++ rest).take (m + 1)) ((a ++ rest).drop (m + 1)) = some v
  rw [← hm, List.take_left, List.drop_left]
  exact hk

theorem greedyPlus_none_of_maxRun_zero {ρ : Type} {p : Char → Bool}
    {s : List Char} {k : List Char → List Char → Option ρ}
    (h : maxRun p s = 0) : greedyPlus p s k = none := by
  unfold greedyPlus
  rw [h]
  rfl

/-- Greedy `\w+` immediately followed by the literal `_backup_usr=`: the
word-run overswallows the 11 word characters `_backup_usr`, and the matcher
backtracks through those 11 candidates (each failing the literal within its
first two characters) down to the intended split. -/
theorem greedyPlus_word_usr {ρ : Type} (st r : List Char)
    (k' : List Char → List Char → Option ρ) (v : ρ)
    (hst : st ≠ []) (hall : ∀ c ∈ st, isWordChar c = true)
    (hk : k' st r = some v) :
    greedyPlus isWordChar (st ++ ("_backup_usr=".toList ++ r))
      (fun g rest => (expectLit "_backup_usr=".toList rest).bind
        (fun rest2 => k' g rest2)) = some v := by
  have husr : "_backup_usr=".toList =
      ['_', 'b', 'a', 'c', 'k', 'u', 'p', '_', 'u', 's', 'r', '='] := rfl
  unfold greedyPlus
  have hrun : maxRun isWordChar (st ++ ("_backup_usr=".toList ++ r)) =
      st.length + 11 := by
    rw [maxRun_append_of_all st _ hall, husr]
    simp only [List.cons_append]
    rw [maxRun_cons_pos (by decide), maxRun_cons_pos (by decide),
      maxRun_cons_pos (by decide), maxRun_cons_pos (by decide),
      maxRun_cons_pos (by decide), maxRun_cons_pos (by decide),
      maxRun_cons_pos (by decide), maxRun_cons_pos (by decide),
      maxRun_cons_pos (by decide), maxRun_cons_pos (by decide),
      maxRun_cons_pos (by decide), maxRun_cons_neg (by decide)]
  rw [hrun]
  have hdrop : ∀ j : Nat, (st ++ ("_backup_usr=".toList ++ r)).drop (st.length + j) =
      ("_backup_usr=".toList ++ r).drop j := fun j => drop_append_len st _ j
  have hfail : ∀ j : Nat, 1 ≤ j → j ≤ 11 →
      (expectLit "_backup_usr=".toList
        (("_backup_usr=".toList ++ r).drop j)) = none := by
    intro j h1 h11
    interval_cases j <;> rfl
  have step : ∀ j : Nat, 1 ≤ j → j ≤ 11 →
      (fun i => (expectLit "_backup_usr=".toList
          ((st ++ ("_backup_usr=".toList ++ r)).drop i)).bind
        (fun rest2 => k' ((st ++ ("_backup_usr=".toList ++ r)).take i) rest2))
        (st.length + j) = none := by
    intro j h1 h11
    show (expectLit "_backup_usr=".toList
        ((st ++ ("_backup_usr=".toList ++ r)).drop (st.length + j))).bind
      (fun rest2 => k' ((st ++ ("_backup_usr=".toList ++ r)).take (st.length + j))
        rest2) = none
    rw [hdrop j, hfail j h1 h11]
    rfl
  calc
    tryFrom (fun i => (fun g rest =>
        (expectLit "_backup_usr=".toList rest).bind (fun rest2 => k' g rest2))
        ((st ++ ("_backup_usr=".toList ++ r)).take i)
        ((st ++ ("_backup_usr=".toList ++ r)).drop i)) (st.length + 11) =
      tryFrom _ (st.length + 10) := tryFrom_succ_none (step 11 (by omega) (by omega))
    _ = tryFrom _ (st.length + 9) := tryFrom_succ_none (step 10 (by omega) (by omega))
    _ = tryFrom _ (st.length + 8) := tryFrom_succ_none (step 9 (by omega) (by omega))
    _ = tryFrom _ (st.length + 7) := tryFrom_succ_none (step 8 (by omega) (by omega))
    _ = tryFrom _ (st.length + 6) := tryFrom_succ_none (step 7 (by omega) (by omega))
    _ = tryFrom _ (st.length + 5) := tryFrom_succ_none (step 6 (by omega) (by omega))
    _ = tryFrom _ (st.length + 4) := tryFrom_succ_none (step 5 (by omega) (by omega))
    _ = tryFrom _ (st.length + 3) := tryFrom_succ_none (step 4 (by omega) (by omega))
    _ = tryFrom _ (st.length + 2) := tryFrom_succ_none (step 3 (by omega) (by omega))
    _ = tryFrom _ (st.length + 1) := tryFrom_succ_none (step 2 (by omega) (by omega))
    _ = tryFrom _ st.length := tryFrom_succ_none (step 1 (by omega) (by omega))
    _ = some v := by
      obtain ⟨m, hm⟩ : ∃ m, st.length = m + 1 := by
        cases st with
        | nil => exact absurd rfl hst
        | cons c cs => exact ⟨cs.length, rfl⟩
      rw [hm]
      apply tryFrom_succ_some
      show (expectLit "_backup_usr=".toList
          ((st ++ ("_backup_usr=".toList ++ r)).drop (m + 1))).bind
        (fun rest2 => k' ((st ++ ("_backup_usr=".toList ++ r)).take (m + 1))
          rest2) = some v
      rw [← hm, List.drop_left, List.take_left, expectLit_append]
      simpa using hk

/-! ## C2 — behaviour of the regex stages on a well-formed filename -/

theorem parseTail_spec (g1 g2 g3 g4 d1c d2c : List Char)
    (hd1ne : d1c ≠ []) (hd1 : ∀ c ∈ d1c, c.isDigit = true)
    (hd2ne : d2c ≠ []) (hd2 : ∀ c ∈ d2c, c.isDigit = true) :
    parseTail g1 g2 g3 g4 (d1c ++ ('_' :: (d2c ++ ('.' :: "tar.gz".toList)))) =
      some { source := g1.asString, tenant_id := g2.asString,
             schedule_id := g3.asString, source_id := g4.asString,
             timestamp := (d1c ++ '_' :: d2c).asString,
             extension := "tar.gz" } := by
  unfold parseTail
  apply greedyPlus_exact hd1ne hd1 (maxRun_cons_neg (by decide))
  have h1 : expectLit ['_'] ('_' :: (d2c ++ ('.' :: "tar.gz".toList))) =
      some (d2c ++ ('.' :: "tar.gz".toList)) := rfl
  rw [h1, Option.some_bind]
  apply greedyPlus_exact hd2ne hd2 (maxRun_cons_neg (by decide))
  have h2 : expectLit ['.'] ('.' :: "tar.gz".toList) =
      some ("tar.gz".toList) := rfl
  rw [h2, Option.some_bind]
  rw [show ("tar.gz".toList : List Char) =
    "tar.gz".toList ++ ([] : List Char) by simp]
  apply greedyPlus_exact (by decide) (by decide)
    (show maxRun isDotChar [] = 0 from rfl)
  rfl

theorem parseSourceId_spec (g1 g2 g3 : List Char) (n : Nat) (T : List Char)
    (v : ParsedFilename)
    (hk : parseTail g1 g2 g3 (Nat.repr n).toList T = some v) :
    parseSourceId g1 g2 g3
      ((Nat.repr n).toList ++ ("_created_at=".toList ++ T)) = some v := by
  unfold parseSourceId
  have hstop : maxRun Char.isDigit ("_created_at=".toList ++ T) = 0 := by
    rw [show "_created_at=".toList ++ T =
      '_' :: ("created_at=".toList ++ T) from rfl]
    exact maxRun_cons_neg (by decide)
  apply greedyPlus_exact (repr_toList_ne_nil n) (repr_all_digits n) hstop
  rw [expectLit_append, Option.some_bind]
  exact hk

theorem parseSchedId_spec (g1 g2 : List Char) (sched : Option Nat)
    (T : List Char) (v : ParsedFilename)
    (hk : parseSourceId g1 g2 (pyOptStr sched).toList T = some v) :
    parseSchedId g1 g2
      ((pyOptStr sched).toList ++ ("_src=".toList ++ T)) = some v := by
  cases sched with
  | some n =>
    have hgp : greedyPlus Char.isDigit
        ((pyOptStr (some n)).toList ++ ("_src=".toList ++ T))
        (fun g3 rest => (expectLit "_src=".toList rest).bind
          (parseSourceId g1 g2 g3)) = some v := by
      have hstop : maxRun Char.isDigit ("_src=".toList ++ T) = 0 := by
        rw [show "_src=".toList ++ T = '_' :: ("src=".toList ++ T) from rfl]
        exact maxRun_cons_neg (by decide)
      apply greedyPlus_exact (repr_toList_ne_nil n) (repr_all_digits n) hstop
      rw [expectLit_append, Option.some_bind]
      exact hk
    simp only [parseSchedId, hgp]
  | none =>
    have hgp : greedyPlus Char.isDigit
        ((pyOptStr none).toList ++ ("_src=".toList ++ T))
        (fun g3 rest => (expectLit "_src=".toList rest).bind
          (parseSourceId g1 g2 g3)) = none := by
      apply greedyPlus_none_of_maxRun_zero
      rw [show (pyOptStr none).toList ++ ("_src=".toList ++ T) =
        'N' :: ("one".toList ++ ("_src=".toList ++ T)) from rfl]
      exact maxRun_cons_neg (by decide)
    have hlit : expectLit "None".toList
        ((pyOptStr none).toList ++ ("_src=".toList ++ T)) =
        some ("_src=".toList ++ T) := expectLit_append _ _
    simp only [parseSchedId, hgp, hlit]
    rw [expectLit_append, Option.some_bind]
    exact hk

theorem parseHead_spec (st ten T : List Char) (v : ParsedFilename)
    (hstne : st ≠ []) (hstw : ∀ c ∈ st, isWordChar c = true)
    (htenne : ten ≠ []) (htenc : ∀ c ∈ ten, isTenantChar c = true)
    (hk : parseSchedId st ten T = some v) :
    parseHead (st ++ ("_backup_usr=".toList ++
      (ten ++ ("_sch=".toList ++ T)))) = some v := by
  unfold parseHead
  apply greedyPlus_word_usr st (ten ++ ("_sch=".toList ++ T))
    (fun g1 rest => greedyPlus isTenantChar rest
      (fun g2 rest2 => (expectLit "_sch=".toList rest2).bind
        (parseSchedId g1 g2))) v hstne hstw
  have hstop : maxRun isTenantChar ("_sch=".toList ++ T) = 0 := by
    rw [show "_sch=".toList ++ T = '_' :: ("sch=".toList ++ T) from rfl]
    exact maxRun_cons_neg (by decide)
  apply greedyPlus_exact htenne htenc hstop
  rw [expectLit_append, Option.some_bind]
  exact hk

/-- A string with no slash is its own `os.path.basename`. -/
theorem pyBasename_eq_self (s : String) (h : ∀ c ∈ s.toList, c ≠ '/') :
    pyBasename s = s := by
  unfold pyBasename
  have haux : ∀ l : List Char, (∀ c ∈ l, c ≠ '/') →
      l.takeWhile (fun c => c ≠ '/') = l := by
    intro l
    induction l with
    | nil => intro _; rfl
    | cons c cs ih =>
      intro hl
      have hc : (c ≠ '/') = True := by simp [hl c (by simp)]
      simp only [List.takeWhile_cons]
      rw [ih (fun x hx => hl x (List.mem_cons_of_mem _ hx))]
      simp [hl c (by simp)]
  rw [haux s.toList.reverse (fun c hc => h c (List.mem_reverse.mp hc)),
    List.reverse_reverse]
  rfl

theorem toList_append (a b : String) : (a ++ b).toList = a.toList ++ b.toList :=
  String.data_append a b

theorem asString_toList (s : String) : s.toList.asString = s := rfl

/-- C2: formatting an artifact filename as the source adapters do and then
parsing it with `_parse_filename` recovers the original `source_type`,
`tenant_id`, `schedule_id` and `source_id` exactly.  The hypotheses delimit
the valid inputs: a nonempty `\w`-tag, a nonempty lowercase-hex-and-dash
tenant id (every canonical UUID qualifies), and a `\d+_\d+` timestamp — and
the rendering maps `pyOptStr` / `Nat.repr` are injective, so the string
fields returned by the parser determine the original values uniquely. -/
theorem c2_filename_roundtrip (source_tag tenant_id : String)
    (schedule_id : Option Nat) (backup_source_id : Nat) (d1 d2 : String)
    (hsrcne : source_tag.toList ≠ [])
    (hsrcw : ∀ c ∈ source_tag.toList, isWordChar c = true)
    (htenne : tenant_id.toList ≠ [])
    (htenc : ∀ c ∈ tenant_id.toList, isTenantChar c = true)
    (hd1ne : d1.toList ≠ []) (hd1 : ∀ c ∈ d1.toList, c.isDigit = true)
    (hd2ne : d2.toList ≠ []) (hd2 : ∀ c ∈ d2.toList, c.isDigit = true) :
    parse_filename (mkBackupFilename source_tag tenant_id schedule_id
        backup_source_id (d1 ++ "_" ++ d2)) =
      .ok { source := source_tag, tenant_id := tenant_id,
            schedule_id := pyOptStr schedule_id,
            source_id := Nat.repr backup_source_id,
            timestamp := d1 ++ "_" ++ d2, extension := "tar.gz" }
    ∧ (∀ a b : Option Nat, pyOptStr a = pyOptStr b → a = b)
    ∧ (∀ a b : Nat, Nat.repr a = Nat.repr b → a = b) := by
  refine ⟨?_, fun a b h => pyOptStr_injective h, fun a b h => repr_injective h⟩
  have hshape : (mkBackupFilename source_tag tenant_id schedule_id
      backup_source_id (d1 ++ "_" ++ d2)).toList =
      source_tag.toList ++ ("_backup_usr=".toList ++ (tenant_id.toList ++
        ("_sch=".toList ++ ((pyOptStr schedule_id).toList ++
          ("_src=".toList ++ ((Nat.repr backup_source_id).toList ++
            ("_created_at=".toList ++ (d1.toList ++ ('_' :: (d2.toList ++
              ('.' :: "tar.gz".toList))))))))))) := by
    simp only [mkBackupFilename, toList_append, List.append_assoc]
    simp [show ("_" : String).toList = ['_'] from rfl,
      show (".tar.gz" : String).toList = '.' :: "tar.gz".toList from rfl]
  have hnoslash : ∀ c ∈ (mkBackupFilename source_tag tenant_id schedule_id
      backup_source_id (d1 ++ "_" ++ d2)).toList, c ≠ '/' := by
    intro c hc heq
    subst heq
    rw [hshape] at hc
    simp only [List.mem_append, List.mem_cons] at hc
    rcases hc with h | h | h | h | h | h | h | h | h | h | h | h | h
    · exact absurd (hsrcw '/' h) (by decide)
    · exact absurd h (by decide)
    · exact absurd (htenc '/' h) (by decide)
    · exact absurd h (by decide)
    · cases schedule_id with
      | none => exact absurd h (by decide)
      | some n => exact absurd (repr_all_digits n '/' h) (by decide)
    · exact absurd h (by decide)
    · exact absurd (repr_all_digits backup_source_id '/' h) (by decide)
    · exact absurd h (by decide)
    · exact absurd (hd1 '/' h) (by decide)
    · exact absurd h (by decide)
    · exact absurd (hd2 '/' h) (by decide)
    · exact absurd h (by decide)
    · exact absurd h (by decide)
  have hts := parseTail_spec source_tag.toList tenant_id.toList
    (pyOptStr schedule_id).toList (Nat.repr backup_source_id).toList
    d1.toList d2.toList hd1ne hd1 hd2ne hd2
  have hsi := parseSourceId_spec source_tag.toList tenant_id.toList
    (pyOptStr schedule_id).toList backup_source_id _ _ hts
  have hsc := parseSchedId_spec source_tag.toList tenant_id.toList
    schedule_id _ _ hsi
  have hph := parseHead_spec source_tag.toList tenant_id.toList _ _
    hsrcne hsrcw htenne htenc hsc
  have hts_field : (d1.toList ++ '_' :: d2.toList).asString = d1 ++ "_" ++ d2 := by
    rw [show d1.toList ++ '_' :: d2.toList = (d1 ++ "_" ++ d2).toList by
      simp [toList_append, show ("_" : String).toList = ['_'] from rfl]]
    exact asString_toList _
  simp only [parse_filename]
  rw [pyBasename_eq_self _ hnoslash, hshape, hph]
  simp only [Except.ok.injEq, ParsedFilename.mk.injEq]
  exact ⟨rfl, rfl, rfl, rfl, hts_field, trivial⟩

/-- C2, witness for `c2_filename_roundtrip` at a concrete qdrant artifact
name. -/
theorem c2_filename_roundtrip_witness :
    parse_filename (mkBackupFilename "qdrant" "3f2a-b4" (some 7) 12
        ("20240101" ++ "_" ++ "120000")) =
      .ok { source := "qdrant", tenant_id := "3f2a-b4",
            schedule_id := pyOptStr (some 7), source_id := Nat.repr 12,
            timestamp := "20240101" ++ "_" ++ "120000",
            extension := "tar.gz" } :=
  (c2_filename_roundtrip "qdrant" "3f2a-b4" (some 7) 12 "20240101" "120000"
    (by decide) (by decide) (by decide) (by decide) (by decide) (by decide)
    (by decide) (by decide)).1

end BackupService
